import Mathlib

/-!
Shallow embedding of the mempool-vortex MEV pipeline (src/searcher.rs,
src/bundler.rs) and proofs about the claims of its specification.

Machine integers: `U256` values are modelled as `Nat`.  Every `U256`
multiplication on the sandwich path is modelled by `u256_mul`, which fails
(like the Rust `*` operator of `primitive_types::U256`, which panics) when
the mathematical product does not fit in 256 bits; divisions and the
guarded subtractions in the source can neither overflow nor underflow, so
they are plain `Nat` operations.  Byte strings are `List Nat` (one byte per
element).  `f64` fields (`health_factor`, `inclusion_probability`) are
modelled as exact rationals; no claim depends on float rounding.
-/

namespace MempoolVortex

/-- Interpret a list of bytes as a big-endian natural number, as
`U256::from_big_endian` does. -/
def fromBigEndian (bs : List Nat) : Nat :=
  bs.foldl (fun acc b => acc * 256 + b) 0

/-- The 32-byte big-endian encoding of a 256-bit value, as
`U256::to_big_endian` writes it. -/
def toBigEndian32 (n : Nat) : List Nat :=
  (List.range 32).map (fun i => n / 256 ^ (31 - i) % 256)

/-- `u256_mul a b` is the Rust `U256` product: the exact product when it
fits in 256 bits, and a failure (the Rust operator panics) otherwise. -/
def u256_mul (a b : Nat) : Except Unit Nat :=
  if a * b < 2 ^ 256 then .ok (a * b) else .error ()

-- Data model (src/searcher.rs)

/-- Supported DEX protocols for arbitrage detection. -/
inductive DEX where
  | UniswapV2
  | UniswapV3
  | SushiSwap
  | PancakeSwap
  | Balancer
deriving DecidableEq, Repr

/-- Supported DeFi lending protocols for liquidation detection. -/
inductive Protocol where
  | Aave
  | Compound
  | MakerDAO
  | Euler
deriving DecidableEq, Repr

/-- Transaction type classification based on function signatures. -/
inductive TxType where
  | ERC20Transfer (token : Nat) (amount : Nat)
  | UniswapV2Swap (token_in token_out : Nat) (amount_in : Nat)
  | UniswapV3Swap (token_in token_out : Nat) (amount_in : Nat)
  | CompoundSupply (token : Nat) (amount : Nat)
  | AaveBorrow (token : Nat) (amount : Nat)
  | Unknown
deriving DecidableEq, Repr

/-- The fields of an `ethers::types::Transaction` that the pipeline reads:
hash, optional recipient, optional gas price, and the raw input bytes. -/
structure Transaction where
  hash : Nat
  to_addr : Option Nat
  gas_price : Option Nat
  input : List Nat
deriving DecidableEq, Repr

/-- Represents different types of MEV opportunities that can be detected. -/
inductive MEVOpportunity where
  | Arbitrage (token_a token_b : Nat) (buy_dex sell_dex : DEX)
      (profit_eth gas_cost_eth net_profit_eth : Nat)
  | Sandwich (victim_tx_hash : Nat) (token_in token_out : Nat)
      (victim_amount_in frontrun_amount backrun_amount : Nat)
      (estimated_profit_eth gas_cost_eth : Nat)
  | Liquidation (protocol : Protocol)
      (position_owner collateral_token debt_token : Nat)
      (collateral_amount debt_amount liquidation_bonus_eth : Nat)
      (health_factor : ℚ)
deriving DecidableEq, Repr

/-- The `frontrun_amount` field of a `Sandwich` opportunity. -/
def MEVOpportunity.frontrunAmount? : MEVOpportunity → Option Nat
  | .Sandwich _ _ _ _ fr _ _ _ => some fr
  | _ => none

/-- The `backrun_amount` field of a `Sandwich` opportunity. -/
def MEVOpportunity.backrunAmount? : MEVOpportunity → Option Nat
  | .Sandwich _ _ _ _ _ br _ _ => some br
  | _ => none

/-- The `net_profit_eth` field of an `Arbitrage` opportunity. -/
def MEVOpportunity.netProfit? : MEVOpportunity → Option Nat
  | .Arbitrage _ _ _ _ _ _ np => some np
  | _ => none

/-- The `sell_dex` field of an `Arbitrage` opportunity. -/
def MEVOpportunity.sellDex? : MEVOpportunity → Option DEX
  | .Arbitrage _ _ _ sd _ _ _ => some sd
  | _ => none

-- Transaction classifier (src/searcher.rs, decode_transaction_type)

/-- Decodes transaction input data to classify the transaction type
(`decode_transaction_type` in src/searcher.rs). -/
def decode_transaction_type (tx : Transaction) : TxType :=
  let input := tx.input
  if input.length < 4 then .Unknown
  else
    let selector := input.take 4
    -- ERC20 transfer(address,uint256) = 0xa9059cbb
    if selector = [0xa9, 0x05, 0x9c, 0xbb] then
      if 68 ≤ input.length then
        .ERC20Transfer (tx.to_addr.getD 0) (fromBigEndian ((input.drop 36).take 32))
      else .Unknown
    -- Uniswap V2 swapExactTokensForTokens = 0x38ed1739
    else if selector = [0x38, 0xed, 0x17, 0x39] then
      if 68 ≤ input.length then
        .UniswapV2Swap 0 0 (fromBigEndian ((input.drop 4).take 32))
      else .Unknown
    -- Uniswap V3 exactInputSingle = 0x414bf389; the source fills all
    -- fields, including amount_in, with placeholder zeroes.
    else if selector = [0x41, 0x4b, 0xf3, 0x89] then
      .UniswapV3Swap 0 0 0
    else .Unknown

-- Gas cost estimation functions (src/searcher.rs)

/-- `estimate_arbitrage_gas_cost`: `U256::from(300_000) * U256::from(20).pow(9)`. -/
def estimate_arbitrage_gas_cost : Nat := 300000 * 20 ^ 9

/-- `estimate_sandwich_gas_cost`: 400k gas times the victim gas price. -/
def estimate_sandwich_gas_cost (gas_price : Nat) : Except Unit Nat :=
  u256_mul 400000 gas_price

/-- `estimate_liquidation_gas_cost`: `U256::from(500_000) * U256::from(25).pow(9)`. -/
def estimate_liquidation_gas_cost : Nat := 500000 * 25 ^ 9

/-- `calculate_sandwich_profit`: a 50-basis-point price impact on the
frontrun amount, `frontrun_amount * 50 / 10000`. -/
def calculate_sandwich_profit (_victim_amount frontrun_amount : Nat) :
    Except Unit Nat :=
  match u256_mul frontrun_amount 50 with
  | .error e => .error e
  | .ok m => .ok (m / 10000)

-- Rust iterator min_by / max_by (used by detect_arbitrage)

/-- Accumulator loop of Rust `Iterator::min_by` over `(DEX, price)` pairs:
the accumulator is replaced only when the new element is strictly smaller,
so the first minimum wins. -/
def minByAux (acc : DEX × Nat) : List (DEX × Nat) → DEX × Nat
  | [] => acc
  | y :: ys => minByAux (if y.2 < acc.2 then y else acc) ys

/-- Rust `Iterator::min_by` with comparison on the price component. -/
def rustMinBy : List (DEX × Nat) → Option (DEX × Nat)
  | [] => none
  | x :: xs => some (minByAux x xs)

/-- Accumulator loop of Rust `Iterator::max_by` over `(DEX, price)` pairs:
the accumulator is replaced whenever the new element is greater or equal,
so the last maximum wins. -/
def maxByAux (acc : DEX × Nat) : List (DEX × Nat) → DEX × Nat
  | [] => acc
  | y :: ys => maxByAux (if y.2 < acc.2 then acc else y) ys

/-- Rust `Iterator::max_by` with comparison on the price component. -/
def rustMaxBy : List (DEX × Nat) → Option (DEX × Nat)
  | [] => none
  | x :: xs => some (maxByAux x xs)

-- Detection strategies (src/searcher.rs)

/-- The mock DEX prices returned by `simulate_dex_prices`. -/
def simulate_dex_prices : List (DEX × Nat) :=
  [(.UniswapV2, 1000 * 10 ^ 18), (.SushiSwap, 1002 * 10 ^ 18),
   (.UniswapV3, 999 * 10 ^ 18)]

/-- `detect_arbitrage` from src/searcher.rs, with the price list returned
by the price oracle (`simulate_dex_prices` in the source) passed as an
argument.  Swaps below 1 ETH equivalent are ignored; otherwise the
minimum-price venue is the buy side, the maximum-price venue the sell
side, and an opportunity is produced iff the price difference exceeds the
fixed gas estimate. -/
def detect_arbitrage (prices : List (DEX × Nat)) (tx_type : TxType) :
    Option MEVOpportunity :=
  match tx_type with
  | .UniswapV2Swap token_in token_out amount_in
  | .UniswapV3Swap token_in token_out amount_in =>
    if amount_in < 10 ^ 18 then none
    else
      match rustMinBy prices, rustMaxBy prices with
      | some best_buy, some best_sell =>
        let price_diff := best_sell.2 - best_buy.2
        let estimated_gas_cost := estimate_arbitrage_gas_cost
        if estimated_gas_cost < price_diff then
          some (.Arbitrage token_in token_out best_buy.1 best_sell.1
            price_diff estimated_gas_cost (price_diff - estimated_gas_cost))
        else none
      | _, _ => none
  | _ => none

/-- `detect_sandwich_opportunity` from src/searcher.rs.  The size
threshold is `U256::from(5).pow(18)` (5 to the 18th power) and the gas
ceiling is `U256::from(50).pow(9)` (50 to the 9th power), exactly as the
source computes them.  The result is `.error ()` when a `U256`
multiplication on the path overflows (a Rust panic). -/
def detect_sandwich_opportunity (tx : Transaction) (tx_type : TxType) :
    Except Unit (Option MEVOpportunity) :=
  match tx_type with
  | .UniswapV2Swap token_in token_out amount_in
  | .UniswapV3Swap token_in token_out amount_in =>
    let min_sandwich_amount := 5 ^ 18
    if amount_in < min_sandwich_amount then .ok none
    else
      let gas_price := tx.gas_price.getD 0
      let max_profitable_gas := 50 ^ 9
      if max_profitable_gas < gas_price then .ok none
      else
        let frontrun_amount := amount_in / 10
        match u256_mul frontrun_amount 105 with
        | .error e => .error e
        | .ok m =>
          let backrun_amount := m / 100
          match calculate_sandwich_profit amount_in frontrun_amount with
          | .error e => .error e
          | .ok estimated_profit =>
            match estimate_sandwich_gas_cost gas_price with
            | .error e => .error e
            | .ok gas_cost =>
              if gas_cost < estimated_profit then
                .ok (some (.Sandwich tx.hash token_in token_out amount_in
                  frontrun_amount backrun_amount estimated_profit gas_cost))
              else .ok none
  | _ => .ok none

/-- `calculate_net_profit` from src/searcher.rs: ranking profit net of gas,
with the unsigned subtraction guarded by an explicit comparison. -/
def calculate_net_profit : MEVOpportunity → Nat
  | .Arbitrage _ _ _ _ _ _ net_profit_eth => net_profit_eth
  | .Sandwich _ _ _ _ _ _ estimated_profit_eth gas_cost_eth =>
    if gas_cost_eth < estimated_profit_eth then
      estimated_profit_eth - gas_cost_eth
    else 0
  | .Liquidation _ _ _ _ _ _ liquidation_bonus_eth _ =>
    let gas_cost := estimate_liquidation_gas_cost
    if gas_cost < liquidation_bonus_eth then
      liquidation_bonus_eth - gas_cost
    else 0

/-- `select_best_opportunity` from src/searcher.rs: stable sort by
descending net profit, then take the first element.  The Rust `unwrap`
is guarded by the emptiness check, which the model makes explicit. -/
def select_best_opportunity (opportunities : List MEVOpportunity) :
    Option MEVOpportunity :=
  if opportunities.isEmpty then none
  else
    (opportunities.insertionSort
      (fun a b => calculate_net_profit b ≤ calculate_net_profit a)).head?

-- Bundler data model (src/bundler.rs)

/-- The fields of an `ethers::types::TransactionRequest` that the bundler
sets: recipient, call data, gas limit, gas price and attached value. -/
structure TransactionRequest where
  to_addr : Option Nat
  data : Option (List Nat)
  gas : Option Nat
  gas_price : Option Nat
  value : Option Nat
deriving DecidableEq, Repr

/-- Represents a complete MEV bundle ready for submission. -/
structure MEVBundle where
  transactions : List TransactionRequest
  target_block : Nat
  min_timestamp : Option Nat
  max_timestamp : Option Nat
  bundle_id : String
  total_gas : Nat
  expected_profit : Nat
deriving DecidableEq, Repr

/-- Status of bundle submission to relays. -/
inductive SubmissionStatus where
  | Submitted
  | Included
  | Failed
  | Expired
  | Reverted
deriving DecidableEq, Repr

/-- Bundle submission result from MEV relays. -/
structure SubmissionResult where
  bundle_hash : String
  status : SubmissionStatus
  relay : String
  block_number : Option Nat
  inclusion_probability : Option ℚ
deriving DecidableEq, Repr

/-- Configuration for MEV relay endpoints. -/
structure RelayConfig where
  name : String
  endpoint : String
  signing_key : Option String
  enabled : Bool
deriving DecidableEq, Repr

-- ABI encoding functions (src/bundler.rs, simplified as in the source)

/-- `encode_uniswap_v2_swap`: selector 0x38ed1739, the 32-byte big-endian
amount, then a 128-byte placeholder for the remaining parameters. -/
def encode_uniswap_v2_swap (_token_in _token_out amount : Nat) : List Nat :=
  [0x38, 0xed, 0x17, 0x39] ++ toBigEndian32 amount ++ List.replicate 128 0

/-- `encode_uniswap_v3_swap`: selector 0x414bf389 and a 160-byte
placeholder for the whole parameter struct. -/
def encode_uniswap_v3_swap (_token_in _token_out _amount : Nat) : List Nat :=
  [0x41, 0x4b, 0xf3, 0x89] ++ List.replicate 160 0

/-- `encode_sushiswap_swap`: SushiSwap uses the Uniswap V2 interface. -/
def encode_sushiswap_swap (token_in token_out amount : Nat) : List Nat :=
  encode_uniswap_v2_swap token_in token_out amount

/-- `encode_aave_flash_loan`: selector 0xab9c4b5d and a 224-byte placeholder. -/
def encode_aave_flash_loan (_token _amount : Nat) : List Nat :=
  [0xab, 0x9c, 0x4b, 0x5d] ++ List.replicate 224 0

/-- `encode_aave_liquidation`: selector 0x00a718a9 and a 160-byte placeholder. -/
def encode_aave_liquidation (_user _collateral _debt _amount : Nat) : List Nat :=
  [0x00, 0xa7, 0x18, 0xa9] ++ List.replicate 160 0

/-- `encode_compound_liquidation`: selector 0xf5e3c462 and a 96-byte placeholder. -/
def encode_compound_liquidation (_user _collateral _debt _amount : Nat) : List Nat :=
  [0xf5, 0xe3, 0xc4, 0x62] ++ List.replicate 96 0

/-- `encode_flash_loan_repay`: selector 0xa9059cbb and a 64-byte placeholder. -/
def encode_flash_loan_repay (_token _amount : Nat) : List Nat :=
  [0xa9, 0x05, 0x9c, 0xbb] ++ List.replicate 64 0

-- Helper functions (src/bundler.rs)

/-- `get_current_block_number`: the source mocks the chain head at
block 18,500,000. -/
def get_current_block_number : Except String Nat := .ok 18500000

/-- `calculate_optimal_gas_price`:
`U256::from(20).pow(9) + U256::from(5).pow(9)`, exactly as the source
computes it. -/
def calculate_optimal_gas_price (_target_block : Nat) : Nat :=
  20 ^ 9 + 5 ^ 9

/-- `calculate_optimal_swap_amount`: a tenth of the arbitrage profit
figure, or a default of one ETH for other variants. -/
def calculate_optimal_swap_amount : MEVOpportunity → Nat
  | .Arbitrage _ _ _ _ profit_eth _ _ => profit_eth / 10
  | _ => 10 ^ 18

/-- `generate_bundle_id` derives an identifier from the wall clock; the
identifier is opaque to every consumer, so it is modelled as a fixed
token. -/
def generate_bundle_id : String := "bundle_0"

-- Transaction creation (src/bundler.rs)

/-- `create_dex_swap_transaction`: routes the swap to the router address
of the venue, failing for venues the builder does not support. -/
def create_dex_swap_transaction (dex : DEX)
    (token_in token_out amount target_block : Nat) :
    Except String TransactionRequest :=
  let routed : Except String (Nat × List Nat) :=
    match dex with
    | .UniswapV2 =>
      .ok (0x7a250d5630B4cF539739dF2C5dAcb4c659F2488D,
        encode_uniswap_v2_swap token_in token_out amount)
    | .UniswapV3 =>
      .ok (0xE592427A0AEce92De3Edee1F18E0157C05861564,
        encode_uniswap_v3_swap token_in token_out amount)
    | .SushiSwap =>
      .ok (0xd9e1cE17f2641f24aE83637ab66a2cca9C378B9F,
        encode_sushiswap_swap token_in token_out amount)
    | _ => .error "Unsupported DEX"
  match routed with
  | .error e => .error e
  | .ok (to_address, call_data) =>
    .ok
      { to_addr := some to_address
        data := some call_data
        gas := some 200000
        gas_price := some (calculate_optimal_gas_price target_block)
        value := if token_in = 0 then some amount else none }

/-- `create_frontrun_transaction`: the frontrun leg uses Uniswap V2. -/
def create_frontrun_transaction (token_in token_out amount target_block : Nat) :
    Except String TransactionRequest :=
  create_dex_swap_transaction .UniswapV2 token_in token_out amount target_block

/-- `create_backrun_transaction`: the backrun leg uses the same DEX. -/
def create_backrun_transaction (token_in token_out amount target_block : Nat) :
    Except String TransactionRequest :=
  create_dex_swap_transaction .UniswapV2 token_in token_out amount target_block

/-- `create_flash_loan_transaction`: draws the flash loan from the Aave
pool contract. -/
def create_flash_loan_transaction (token amount target_block : Nat) :
    Except String TransactionRequest :=
  let call_data := encode_aave_flash_loan token amount
  .ok
    { to_addr := some 0x7d2768dE32b0b80b7a3454c06BdAc94A69DDc7A9
      data := some call_data
      gas := some 300000
      gas_price := some (calculate_optimal_gas_price target_block)
      value := none }

/-- `create_liquidation_transaction`: routes the liquidation call to the
protocol contract, failing for unsupported protocols. -/
def create_liquidation_transaction (protocol : Protocol)
    (position_owner collateral_token debt_token debt_amount target_block : Nat) :
    Except String TransactionRequest :=
  let routed : Except String (Nat × List Nat) :=
    match protocol with
    | .Aave =>
      .ok (0x7d2768dE32b0b80b7a3454c06BdAc94A69DDc7A9,
        encode_aave_liquidation position_owner collateral_token debt_token
          debt_amount)
    | .Compound =>
      .ok (0x3d9819210A31b4961b30EF54bE2aeD79B9c9Cd3B,
        encode_compound_liquidation position_owner collateral_token debt_token
          debt_amount)
    | _ => .error "Unsupported protocol"
  match routed with
  | .error e => .error e
  | .ok (contract_address, call_data) =>
    .ok
      { to_addr := some contract_address
        data := some call_data
        gas := some 400000
        gas_price := some (calculate_optimal_gas_price target_block)
        value := none }

/-- `create_flash_loan_repay_transaction`: an ERC20 transfer back to the
token contract. -/
def create_flash_loan_repay_transaction (token amount target_block : Nat) :
    Except String TransactionRequest :=
  let call_data := encode_flash_loan_repay token amount
  .ok
    { to_addr := some token
      data := some call_data
      gas := some 100000
      gas_price := some (calculate_optimal_gas_price target_block)
      value := none }

-- Bundle creation (src/bundler.rs)

/-- `create_arbitrage_bundle`: a buy leg on the cheaper DEX followed by a
sell leg on the more expensive DEX, targeting the next block. -/
def create_arbitrage_bundle (opportunity : MEVOpportunity) :
    Except String MEVBundle :=
  match opportunity with
  | .Arbitrage token_a token_b buy_dex sell_dex _ _ net_profit_eth =>
    match get_current_block_number with
    | .error e => .error e
    | .ok current_block =>
    let target_block := current_block + 1
    match create_dex_swap_transaction buy_dex token_a token_b
      (calculate_optimal_swap_amount opportunity) target_block with
    | .error e => .error e
    | .ok buy_tx =>
    match create_dex_swap_transaction sell_dex token_b token_a
      (calculate_optimal_swap_amount opportunity) target_block with
    | .error e => .error e
    | .ok sell_tx =>
    .ok
      { transactions := [buy_tx, sell_tx]
        target_block := target_block
        min_timestamp := none
        max_timestamp := none
        bundle_id := generate_bundle_id
        total_gas := 400000
        expected_profit := net_profit_eth }
  | _ => .error "Invalid opportunity type for arbitrage bundle"

/-- `create_sandwich_bundle`: a frontrun leg followed by a backrun leg;
the victim transaction is never constructed. -/
def create_sandwich_bundle (opportunity : MEVOpportunity) :
    Except String MEVBundle :=
  match opportunity with
  | .Sandwich _ token_in token_out _ frontrun_amount backrun_amount
      estimated_profit_eth _ =>
    match get_current_block_number with
    | .error e => .error e
    | .ok current_block =>
    let target_block := current_block + 1
    match create_frontrun_transaction token_in token_out
      frontrun_amount target_block with
    | .error e => .error e
    | .ok frontrun_tx =>
    match create_backrun_transaction token_out token_in
      backrun_amount target_block with
    | .error e => .error e
    | .ok backrun_tx =>
    .ok
      { transactions := [frontrun_tx, backrun_tx]
        target_block := target_block
        min_timestamp := none
        max_timestamp := none
        bundle_id := generate_bundle_id
        total_gas := 500000
        expected_profit := estimated_profit_eth }
  | _ => .error "Invalid opportunity type for sandwich bundle"

/-- `create_liquidation_bundle`: flash-loan draw, liquidation call and
flash-loan repay, in that order. -/
def create_liquidation_bundle (opportunity : MEVOpportunity) :
    Except String MEVBundle :=
  match opportunity with
  | .Liquidation protocol position_owner collateral_token debt_token _
      debt_amount liquidation_bonus_eth _ =>
    match get_current_block_number with
    | .error e => .error e
    | .ok current_block =>
    let target_block := current_block + 1
    match create_flash_loan_transaction debt_token debt_amount
      target_block with
    | .error e => .error e
    | .ok flash_loan_tx =>
    match create_liquidation_transaction protocol
      position_owner collateral_token debt_token debt_amount target_block with
    | .error e => .error e
    | .ok liquidation_tx =>
    match create_flash_loan_repay_transaction debt_token debt_amount
      target_block with
    | .error e => .error e
    | .ok repay_tx =>
    .ok
      { transactions := [flash_loan_tx, liquidation_tx, repay_tx]
        target_block := target_block
        min_timestamp := none
        max_timestamp := none
        bundle_id := generate_bundle_id
        total_gas := 600000
        expected_profit := liquidation_bonus_eth }
  | _ => .error "Invalid opportunity type for liquidation bundle"

-- Relay submission (src/bundler.rs)

/-- `get_relay_configs`: flashbots and bloXroute enabled, eden disabled.
Signing keys come from the environment and are modelled as absent. -/
def get_relay_configs : List RelayConfig :=
  [{ name := "flashbots", endpoint := "https://relay.flashbots.net",
     signing_key := none, enabled := true },
   { name := "bloXroute", endpoint := "https://mev.api.blxrbdn.com",
     signing_key := none, enabled := true },
   { name := "eden", endpoint := "https://api.edennetwork.io",
     signing_key := none, enabled := false }]

/-- `submit_to_flashbots`: the mock Flashbots submission always succeeds. -/
def submit_to_flashbots (bundle : MEVBundle) (_relay : RelayConfig) :
    Except String SubmissionResult :=
  .ok { bundle_hash := "fb_" ++ bundle.bundle_id, status := .Submitted,
        relay := "flashbots", block_number := some bundle.target_block,
        inclusion_probability := some (85 / 100 : ℚ) }

/-- `submit_to_bloxroute`: the mock bloXroute submission always succeeds. -/
def submit_to_bloxroute (bundle : MEVBundle) (_relay : RelayConfig) :
    Except String SubmissionResult :=
  .ok { bundle_hash := "bx_" ++ bundle.bundle_id, status := .Submitted,
        relay := "bloXroute", block_number := some bundle.target_block,
        inclusion_probability := some (75 / 100 : ℚ) }

/-- `submit_to_eden`: the mock Eden submission always succeeds. -/
def submit_to_eden (bundle : MEVBundle) (_relay : RelayConfig) :
    Except String SubmissionResult :=
  .ok { bundle_hash := "eden_" ++ bundle.bundle_id, status := .Submitted,
        relay := "eden", block_number := some bundle.target_block,
        inclusion_probability := some (70 / 100 : ℚ) }

/-- `submit_to_relay`: dispatches on the relay name. -/
def submit_to_relay (bundle : MEVBundle) (relay : RelayConfig) :
    Except String SubmissionResult :=
  if relay.name = "flashbots" then submit_to_flashbots bundle relay
  else if relay.name = "bloXroute" then submit_to_bloxroute bundle relay
  else if relay.name = "eden" then submit_to_eden bundle relay
  else .error ("Unsupported relay: " ++ relay.name)

/-- The relay loop of `submit_bundle_to_relays`, with the per-relay
submission call passed as a function.  Besides the result it returns the
names of the relays on which a submission call was attempted, in order. -/
def submit_bundle_loop (attempt : RelayConfig → Except String SubmissionResult) :
    List RelayConfig → Except String SubmissionResult × List String
  | [] => (.error "Failed to submit bundle to any relay", [])
  | relay :: rest =>
    if relay.enabled then
      match attempt relay with
      | .ok result => (.ok result, [relay.name])
      | .error _ =>
        let p := submit_bundle_loop attempt rest
        (p.1, relay.name :: p.2)
    else submit_bundle_loop attempt rest

/-- `submit_bundle_to_relays`: iterate the configured relays in priority
order, skipping disabled ones, returning the first success. -/
def submit_bundle_to_relays (bundle : MEVBundle) :
    Except String SubmissionResult × List String :=
  submit_bundle_loop (fun relay => submit_to_relay bundle relay)
    get_relay_configs

-- Pipeline entry point and validation (src/bundler.rs)

/-- `create_and_send_bundle`: build the bundle for the opportunity, then
either return the simulated result or submit to the relays.  The second
component is the list of relays on which a submission call was attempted. -/
def create_and_send_bundle (opportunity : MEVOpportunity) (simulate : Bool) :
    Except String SubmissionResult × List String :=
  let bundle? :=
    match opportunity with
    | .Arbitrage .. => create_arbitrage_bundle opportunity
    | .Sandwich .. => create_sandwich_bundle opportunity
    | .Liquidation .. => create_liquidation_bundle opportunity
  match bundle? with
  | .error e => (.error e, [])
  | .ok bundle =>
    if simulate then
      (.ok { bundle_hash := "simulated", status := .Submitted,
             relay := "simulation", block_number := some bundle.target_block,
             inclusion_probability := some 1 }, [])
    else submit_bundle_to_relays bundle

/-- `validate_bundle`: rejects empty bundles, bundles with zero expected
profit, and bundles whose summed per-leg gas exceeds the 12,000,000
block-gas ceiling.  The `as_u64` narrowing of each leg gas is modelled by
reduction modulo 2^64. -/
def validate_bundle (bundle : MEVBundle) : Except String Unit :=
  if bundle.transactions.isEmpty then .error "Bundle cannot be empty"
  else if bundle.expected_profit = 0 then
    .error "Bundle must have positive expected profit"
  else
    let total_gas :=
      (bundle.transactions.map (fun tx => tx.gas.getD 0 % 2 ^ 64)).sum
    if 12000000 < total_gas then .error "Bundle gas usage exceeds block limit"
    else .ok ()

-- Specification-side predicates used to state venue selection

/-- A pair is the first minimum of a price list: some index holds it, its
price is minimal, and every strictly earlier entry has a strictly larger
price. -/
def isFirstMin (l : List (DEX × Nat)) (x : DEX × Nat) : Prop :=
  ∃ i, l.get? i = some x ∧ (∀ y ∈ l, x.2 ≤ y.2) ∧
    ∀ j, j < i → ∀ y, l.get? j = some y → x.2 < y.2

/-- A pair is the last maximum of a price list: some index holds it, its
price is maximal, and every strictly later entry has a strictly smaller
price. -/
def isLastMax (l : List (DEX × Nat)) (x : DEX × Nat) : Prop :=
  ∃ i, l.get? i = some x ∧ (∀ y ∈ l, y.2 ≤ x.2) ∧
    ∀ j, i < j → ∀ y, l.get? j = some y → y.2 < x.2

-- Lemmas about the Rust min_by / max_by loops

lemma minByAux_le (l : List (DEX × Nat)) :
    ∀ acc, (minByAux acc l).2 ≤ acc.2 ∧ ∀ y ∈ l, (minByAux acc l).2 ≤ y.2 := by
  induction l with
  | nil => exact fun acc => ⟨le_refl _, by simp⟩
  | cons y ys ih =>
    intro acc
    by_cases hy : y.2 < acc.2
    · have e : minByAux acc (y :: ys) = minByAux y ys := by
        simp [minByAux, hy]
      obtain ⟨h1, h2⟩ := ih y
      rw [e]
      refine ⟨h1.trans hy.le, ?_⟩
      intro z hz
      rcases List.mem_cons.mp hz with rfl | hz
      · exact h1
      · exact h2 z hz
    · have e : minByAux acc (y :: ys) = minByAux acc ys := by
        simp [minByAux, hy]
      obtain ⟨h1, h2⟩ := ih acc
      rw [e]
      refine ⟨h1, ?_⟩
      intro z hz
      rcases List.mem_cons.mp hz with rfl | hz
      · exact h1.trans (not_lt.mp hy)
      · exact h2 z hz

lemma minByAux_first (l : List (DEX × Nat)) :
    ∀ acc, minByAux acc l = acc ∨
      ∃ i y, l.get? i = some y ∧ minByAux acc l = y ∧ y.2 < acc.2 ∧
        ∀ j, j < i → ∀ z, l.get? j = some z → y.2 < z.2 := by
  induction l with
  | nil => exact fun acc => Or.inl rfl
  | cons y ys ih =>
    intro acc
    by_cases hy : y.2 < acc.2
    · have e : minByAux acc (y :: ys) = minByAux y ys := by
        simp [minByAux, hy]
      rcases ih y with h | ⟨i, w, hget, heq, hlt, hfirst⟩
      · right
        exact ⟨0, y, rfl, by rw [e, h], hy,
          fun j hj => absurd hj (Nat.not_lt_zero j)⟩
      · right
        refine ⟨i + 1, w, hget, by rw [e, heq], hlt.trans hy, ?_⟩
        intro j hj z hz
        cases j with
        | zero =>
          simp only [List.get?_cons_zero, Option.some.injEq] at hz
          subst hz
          exact hlt
        | succ k =>
          exact hfirst k (Nat.lt_of_succ_lt_succ hj) z hz
    · have e : minByAux acc (y :: ys) = minByAux acc ys := by
        simp [minByAux, hy]
      rcases ih acc with h | ⟨i, w, hget, heq, hlt, hfirst⟩
      · left
        rw [e, h]
      · right
        refine ⟨i + 1, w, hget, by rw [e, heq], hlt, ?_⟩
        intro j hj z hz
        cases j with
        | zero =>
          simp only [List.get?_cons_zero, Option.some.injEq] at hz
          subst hz
          exact hlt.trans_le (not_lt.mp hy)
        | succ k =>
          exact hfirst k (Nat.lt_of_succ_lt_succ hj) z hz

lemma rustMinBy_min (l : List (DEX × Nat)) (x : DEX × Nat)
    (h : rustMinBy l = some x) : ∀ y ∈ l, x.2 ≤ y.2 := by
  cases l with
  | nil => cases h
  | cons hd t =>
    simp only [rustMinBy, Option.some.injEq] at h
    subst h
    obtain ⟨h1, h2⟩ := minByAux_le t hd
    intro y hy
    rcases List.mem_cons.mp hy with rfl | hy
    · exact h1
    · exact h2 y hy

lemma rustMinBy_firstMin (l : List (DEX × Nat)) (x : DEX × Nat)
    (h : rustMinBy l = some x) : isFirstMin l x := by
  have hmin := rustMinBy_min l x h
  cases l with
  | nil => cases h
  | cons hd t =>
    simp only [rustMinBy, Option.some.injEq] at h
    rcases minByAux_first t hd with h0 | ⟨i, w, hget, heq, hlt, hfirst⟩
    · have hxhd : x = hd := by rw [← h, h0]
      subst hxhd
      exact ⟨0, rfl, hmin, fun j hj => absurd hj (Nat.not_lt_zero j)⟩
    · have hxw : x = w := by rw [← h, heq]
      subst hxw
      refine ⟨i + 1, hget, hmin, ?_⟩
      intro j hj z hz
      cases j with
      | zero =>
        simp only [List.get?_cons_zero, Option.some.injEq] at hz
        subst hz
        exact hlt
      | succ k =>
        exact hfirst k (Nat.lt_of_succ_lt_succ hj) z hz

lemma maxByAux_ge (l : List (DEX × Nat)) :
    ∀ acc, acc.2 ≤ (maxByAux acc l).2 ∧ ∀ y ∈ l, y.2 ≤ (maxByAux acc l).2 := by
  induction l with
  | nil => exact fun acc => ⟨le_refl _, by simp⟩
  | cons y ys ih =>
    intro acc
    by_cases hy : y.2 < acc.2
    · have e : maxByAux acc (y :: ys) = maxByAux acc ys := by
        simp [maxByAux, hy]
      obtain ⟨h1, h2⟩ := ih acc
      rw [e]
      refine ⟨h1, ?_⟩
      intro z hz
      rcases List.mem_cons.mp hz with rfl | hz
      · exact hy.le.trans h1
      · exact h2 z hz
    · have e : maxByAux acc (y :: ys) = maxByAux y ys := by
        simp [maxByAux, hy]
      obtain ⟨h1, h2⟩ := ih y
      rw [e]
      refine ⟨(not_lt.mp hy).trans h1, ?_⟩
      intro z hz
      rcases List.mem_cons.mp hz with rfl | hz
      · exact h1
      · exact h2 z hz

lemma maxByAux_last (l : List (DEX × Nat)) :
    ∀ acc, (maxByAux acc l = acc ∧ ∀ z ∈ l, z.2 < acc.2) ∨
      ∃ i y, l.get? i = some y ∧ maxByAux acc l = y ∧ acc.2 ≤ y.2 ∧
        ∀ j, i < j → ∀ z, l.get? j = some z → z.2 < y.2 := by
  induction l with
  | nil => exact fun acc => Or.inl ⟨rfl, by simp⟩
  | cons y ys ih =>
    intro acc
    by_cases hy : y.2 < acc.2
    · have e : maxByAux acc (y :: ys) = maxByAux acc ys := by
        simp [maxByAux, hy]
      rcases ih acc with ⟨h0, hall⟩ | ⟨i, w, hget, heq, hge, hlast⟩
      · left
        refine ⟨by rw [e, h0], ?_⟩
        intro z hz
        rcases List.mem_cons.mp hz with rfl | hz
        · exact hy
        · exact hall z hz
      · right
        refine ⟨i + 1, w, hget, by rw [e, heq], hge, ?_⟩
        intro j hj z hz
        cases j with
        | zero => exact absurd hj (Nat.not_lt_zero _)
        | succ k =>
          exact hlast k (Nat.lt_of_succ_lt_succ hj) z hz
    · have e : maxByAux acc (y :: ys) = maxByAux y ys := by
        simp [maxByAux, hy]
      rcases ih y with ⟨h0, hall⟩ | ⟨i, w, hget, heq, hge, hlast⟩
      · right
        refine ⟨0, y, rfl, by rw [e, h0], not_lt.mp hy, ?_⟩
        intro j hj z hz
        cases j with
        | zero => exact absurd hj (lt_irrefl 0)
        | succ k =>
          exact hall z (List.get?_mem hz)
      · right
        refine ⟨i + 1, w, hget, by rw [e, heq], (not_lt.mp hy).trans hge, ?_⟩
        intro j hj z hz
        cases j with
        | zero => exact absurd hj (Nat.not_lt_zero _)
        | succ k =>
          exact hlast k (Nat.lt_of_succ_lt_succ hj) z hz

lemma rustMaxBy_max (l : List (DEX × Nat)) (x : DEX × Nat)
    (h : rustMaxBy l = some x) : ∀ y ∈ l, y.2 ≤ x.2 := by
  cases l with
  | nil => cases h
  | cons hd t =>
    simp only [rustMaxBy, Option.some.injEq] at h
    subst h
    obtain ⟨h1, h2⟩ := maxByAux_ge t hd
    intro y hy
    rcases List.mem_cons.mp hy with rfl | hy
    · exact h1
    · exact h2 y hy

lemma rustMaxBy_lastMax (l : List (DEX × Nat)) (x : DEX × Nat)
    (h : rustMaxBy l = some x) : isLastMax l x := by
  have hmax := rustMaxBy_max l x h
  cases l with
  | nil => cases h
  | cons hd t =>
    simp only [rustMaxBy, Option.some.injEq] at h
    rcases maxByAux_last t hd with ⟨h0, hall⟩ | ⟨i, w, hget, heq, hge, hlast⟩
    · have hxhd : x = hd := by rw [← h, h0]
      subst hxhd
      refine ⟨0, rfl, hmax, ?_⟩
      intro j hj z hz
      cases j with
      | zero => exact absurd hj (lt_irrefl 0)
      | succ k =>
        exact hall z (List.get?_mem hz)
    · have hxw : x = w := by rw [← h, heq]
      subst hxw
      refine ⟨i + 1, hget, hmax, ?_⟩
      intro j hj z hz
      cases j with
      | zero => exact absurd hj (Nat.not_lt_zero _)
      | succ k =>
        exact hlast k (Nat.lt_of_succ_lt_succ hj) z hz

-- Lemmas about the relay submission loop

lemma submit_loop_all_disabled
    (attempt : RelayConfig → Except String SubmissionResult) :
    ∀ relays : List RelayConfig, (∀ r ∈ relays, r.enabled = false) →
      submit_bundle_loop attempt relays =
        (.error "Failed to submit bundle to any relay", []) := by
  intro relays
  induction relays with
  | nil => intro _; rfl
  | cons r rest ih =>
    intro h
    have hr : r.enabled = false := h r (List.mem_cons_self r rest)
    have : submit_bundle_loop attempt (r :: rest) =
        submit_bundle_loop attempt rest := by
      simp [submit_bundle_loop, hr]
    rw [this]
    exact ih fun p hp => h p (List.mem_cons_of_mem r hp)

lemma submit_loop_error_iff
    (attempt : RelayConfig → Except String SubmissionResult) :
    ∀ relays : List RelayConfig,
      (∃ e, (submit_bundle_loop attempt relays).1 = .error e) ↔
        ∀ r ∈ relays, r.enabled = true → ∃ e, attempt r = .error e := by
  intro relays
  induction relays with
  | nil =>
    constructor
    · intro _ r hr
      cases hr
    · intro _
      exact ⟨"Failed to submit bundle to any relay", rfl⟩
  | cons r rest ih =>
    by_cases hr : r.enabled = true
    · cases ha : attempt r with
      | ok v =>
        have e1 : submit_bundle_loop attempt (r :: rest) = (.ok v, [r.name]) := by
          simp [submit_bundle_loop, hr, ha]
        constructor
        · intro ⟨e, he⟩
          rw [e1] at he
          cases he
        · intro h
          obtain ⟨e, he⟩ := h r (List.mem_cons_self r rest) hr
          rw [ha] at he
          cases he
      | error e0 =>
        have e1 : submit_bundle_loop attempt (r :: rest) =
            ((submit_bundle_loop attempt rest).1,
              r.name :: (submit_bundle_loop attempt rest).2) := by
          simp [submit_bundle_loop, hr, ha]
        rw [List.forall_mem_cons]
        constructor
        · intro ⟨e, he⟩
          rw [e1] at he
          exact ⟨fun _ => ⟨e0, ha⟩, ih.mp ⟨e, he⟩⟩
        · intro ⟨_, h⟩
          obtain ⟨e, he⟩ := ih.mpr h
          exact ⟨e, by rw [e1]; exact he⟩
    · have e1 : submit_bundle_loop attempt (r :: rest) =
          submit_bundle_loop attempt rest := by
        simp [submit_bundle_loop, hr]
      rw [e1, List.forall_mem_cons, ih]
      constructor
      · intro h
        exact ⟨fun hc => absurd hc hr, h⟩
      · intro ⟨_, h⟩
        exact h

lemma submit_loop_first_success
    (attempt : RelayConfig → Except String SubmissionResult) :
    ∀ (pre : List RelayConfig) (r : RelayConfig) (post : List RelayConfig)
      (v : SubmissionResult), r.enabled = true → attempt r = .ok v →
      (∀ p ∈ pre, p.enabled = true → ∃ e, attempt p = .error e) →
      submit_bundle_loop attempt (pre ++ r :: post) =
        (.ok v, (pre.filter (fun p => p.enabled)).map (fun p => p.name)
          ++ [r.name]) := by
  intro pre
  induction pre with
  | nil =>
    intro r post v hr ha _
    simp [submit_bundle_loop, hr, ha]
  | cons p ps ih =>
    intro r post v hr ha hfail
    by_cases hp : p.enabled = true
    · obtain ⟨e, he⟩ := hfail p (List.mem_cons_self p ps) hp
      have e1 : submit_bundle_loop attempt ((p :: ps) ++ r :: post) =
          ((submit_bundle_loop attempt (ps ++ r :: post)).1,
            p.name :: (submit_bundle_loop attempt (ps ++ r :: post)).2) := by
        simp [submit_bundle_loop, hp, he]
      rw [e1, ih r post v hr ha
        (fun q hq => hfail q (List.mem_cons_of_mem p hq))]
      simp [hp]
    · have e1 : submit_bundle_loop attempt ((p :: ps) ++ r :: post) =
          submit_bundle_loop attempt (ps ++ r :: post) := by
        simp [submit_bundle_loop, hp]
      rw [e1, ih r post v hr ha
        (fun q hq => hfail q (List.mem_cons_of_mem p hq))]
      simp [hp]

-- Claim theorems

/-- C1: the claim says every invalid bundle (empty, zero expected profit,
or over the block-gas ceiling) is rejected before any relay is invoked in
the create-and-send pipeline.  The code evidence: for an arbitrage
opportunity with zero net profit, `create_and_send_bundle` attempts a
submission call on the flashbots relay, while `validate_bundle` rejects
the very bundle it built — validation is never invoked by the pipeline. -/
theorem C1_invalid_bundle_submitted_without_validation :
    (create_and_send_bundle (.Arbitrage 1 2 .UniswapV2 .SushiSwap 5 5 0)
        false).2 = ["flashbots"] ∧
    (create_arbitrage_bundle (.Arbitrage 1 2 .UniswapV2 .SushiSwap 5 5 0)
        >>= fun b => validate_bundle b)
      = .error "Bundle must have positive expected profit" :=
  ⟨rfl, rfl⟩

/-- C2: the claim says a Swap with `amount_in` below 5 native units
(5 times 10^18 wei) is never sandwiched.  The code evidence: a swap of
10^16 wei (0.01 native units) with gas price 0 yields a sandwich
opportunity, because the source computes the threshold as
`U256::from(5).pow(18)` — 5 to the 18th power, about 3.8 times 10^12 —
and not 5 times 10^18 as its own comment states. -/
theorem C2_small_swap_sandwiched_below_five_eth :
    detect_sandwich_opportunity ⟨7, none, some 0, []⟩
        (.UniswapV2Swap 0 0 (10 ^ 16))
      = .ok (some (.Sandwich 7 0 0 (10 ^ 16) (10 ^ 15) (105 * 10 ^ 13)
          (5 * 10 ^ 12) 0)) ∧
    10 ^ 16 < 5 * 10 ^ 18 :=
  ⟨rfl, by decide⟩

/-- C3: the claim says a Swap whose gas price exceeds 50 gwei (50 times
10^9 wei) is never sandwiched.  The code evidence: a swap of 10^20 wei
with gas price 10^11 wei (100 gwei) yields a sandwich opportunity,
because the source computes the ceiling as `U256::from(50).pow(9)` — 50
to the 9th power, about 1.95 times 10^15 — and not 50 times 10^9 as its
own comment states. -/
theorem C3_high_gas_swap_sandwiched_above_fifty_gwei :
    detect_sandwich_opportunity ⟨7, none, some (10 ^ 11), []⟩
        (.UniswapV2Swap 0 0 (10 ^ 20))
      = .ok (some (.Sandwich 7 0 0 (10 ^ 20) (10 ^ 19) (105 * 10 ^ 17)
          (5 * 10 ^ 16) (4 * 10 ^ 16))) ∧
    50 * 10 ^ 9 < 10 ^ 11 :=
  ⟨rfl, by decide⟩

/-- C4 counterexample: with prices 0, 2 times 10^17 and 2 times 10^17 for
UniswapV2, SushiSwap and UniswapV3, the maximal price is shared and
SushiSwap is enumerated first, yet the detector selects UniswapV3 as the
sell venue: the sell-side tie is broken by the last venue encountered,
refuting the claim that the first venue wins on either side. -/
theorem C4_sell_tie_counterexample :
    detect_arbitrage
        [(.UniswapV2, 0), (.SushiSwap, 2 * 10 ^ 17), (.UniswapV3, 2 * 10 ^ 17)]
        (.UniswapV2Swap 0 0 (10 ^ 18))
      = some (.Arbitrage 0 0 .UniswapV2 .UniswapV3 (2 * 10 ^ 17)
          (1536 * 10 ^ 14) (464 * 10 ^ 14)) ∧
    [((.UniswapV2 : DEX), (0 : Nat)), (.SushiSwap, 2 * 10 ^ 17),
        (.UniswapV3, 2 * 10 ^ 17)].get? 1 = some (.SushiSwap, 2 * 10 ^ 17) ∧
    DEX.SushiSwap ≠ DEX.UniswapV3 :=
  ⟨rfl, rfl, by decide⟩

/-- C4 (amended): every arbitrage opportunity the detector yields buys at
a venue holding the minimum price — ties broken by the first venue
encountered — and sells at a venue holding the maximum price — ties
broken by the last venue encountered; and when the minimum price equals
the maximum price no opportunity is yielded. -/
theorem C4_buy_first_min_sell_last_max (prices : List (DEX × Nat))
    (tt : TxType) (tin tout a : Nat)
    (hswap : tt = .UniswapV2Swap tin tout a ∨ tt = .UniswapV3Swap tin tout a) :
    (∀ o, detect_arbitrage prices tt = some o →
      ∃ bd bp sd sp pe ge ne, o = .Arbitrage tin tout bd sd pe ge ne ∧
        rustMinBy prices = some (bd, bp) ∧ rustMaxBy prices = some (sd, sp) ∧
        isFirstMin prices (bd, bp) ∧ isLastMax prices (sd, sp)) ∧
    (∀ bd bp sd sp, rustMinBy prices = some (bd, bp) →
      rustMaxBy prices = some (sd, sp) → bp = sp →
      detect_arbitrage prices tt = none) := by
  rcases hswap with rfl | rfl <;>
  · constructor
    · intro o ho
      simp only [detect_arbitrage] at ho
      split_ifs at ho with h1
      rcases hmin : rustMinBy prices with _ | ⟨bd, bp⟩ <;> rw [hmin] at ho
      · cases ho
      · rcases hmax : rustMaxBy prices with _ | ⟨sd, sp⟩ <;> rw [hmax] at ho
        · cases ho
        · dsimp only at ho
          split_ifs at ho with h2
          simp only [Option.some.injEq] at ho
          subst ho
          exact ⟨bd, bp, sd, sp, _, _, _, rfl, rfl, rfl,
            rustMinBy_firstMin prices (bd, bp) hmin,
            rustMaxBy_lastMax prices (sd, sp) hmax⟩
    · intro bd bp sd sp hmin hmax heq
      simp only [detect_arbitrage]
      split_ifs with h1
      · rfl
      · rw [hmin, hmax]
        dsimp only
        rw [heq]
        simp

/-- C4 witness: on two venues sharing one price the amended theorem
applies and no opportunity is yielded. -/
theorem C4_buy_first_min_sell_last_max_witness :
    detect_arbitrage [((.UniswapV2 : DEX), (5 : Nat)), (.SushiSwap, 5)]
        (.UniswapV2Swap 0 0 (10 ^ 18)) = none :=
  (C4_buy_first_min_sell_last_max [(.UniswapV2, 5), (.SushiSwap, 5)] _ 0 0
      (10 ^ 18) (Or.inl rfl)).2 .UniswapV2 5 .SushiSwap 5 rfl rfl rfl

/-- C5: every sandwich opportunity the strategy accepts carries
`frontrun_amount` exactly `amount_in / 10` and `backrun_amount` exactly
`frontrun_amount * 105 / 100`, under integer division. -/
theorem C5_sandwich_amount_formulas (tx : Transaction) (tt : TxType)
    (tin tout a : Nat) (r : MEVOpportunity)
    (hswap : tt = .UniswapV2Swap tin tout a ∨ tt = .UniswapV3Swap tin tout a)
    (hdet : detect_sandwich_opportunity tx tt = .ok (some r)) :
    r.frontrunAmount? = some (a / 10) ∧
    r.backrunAmount? = some (a / 10 * 105 / 100) := by
  rcases hswap with rfl | rfl <;>
  · simp only [detect_sandwich_opportunity] at hdet
    split_ifs at hdet with h1 h2
    · simp at hdet
    · simp at hdet
    · rcases hm : u256_mul (a / 10) 105 with e | m <;> rw [hm] at hdet
      · simp at hdet
      · rcases hp : calculate_sandwich_profit a (a / 10) with e | p <;>
          rw [hp] at hdet
        · simp at hdet
        · rcases hg : estimate_sandwich_gas_cost (tx.gas_price.getD 0)
            with e | g <;> rw [hg] at hdet
          · simp at hdet
          · dsimp only at hdet
            split_ifs at hdet with h3
            · simp only [Except.ok.injEq, Option.some.injEq] at hdet
              subst hdet
              have hm' : m = a / 10 * 105 := by
                simp only [u256_mul] at hm
                split_ifs at hm
                exact (Except.ok.injEq _ _).mp hm |>.symm
              subst hm'
              exact ⟨rfl, rfl⟩
            · simp at hdet

/-- C5 witness: the accepted sandwich on a 10^16 wei swap carries the
claimed frontrun and backrun amounts. -/
theorem C5_sandwich_amount_formulas_witness :
    (MEVOpportunity.Sandwich 7 0 0 (10 ^ 16) (10 ^ 15) (105 * 10 ^ 13)
        (5 * 10 ^ 12) 0).frontrunAmount? = some (10 ^ 16 / 10) ∧
    (MEVOpportunity.Sandwich 7 0 0 (10 ^ 16) (10 ^ 15) (105 * 10 ^ 13)
        (5 * 10 ^ 12) 0).backrunAmount? = some (10 ^ 16 / 10 * 105 / 100) :=
  C5_sandwich_amount_formulas ⟨7, none, some 0, []⟩
    (.UniswapV2Swap 0 0 (10 ^ 16)) 0 0 (10 ^ 16)
    (.Sandwich 7 0 0 (10 ^ 16) (10 ^ 15) (105 * 10 ^ 13) (5 * 10 ^ 12) 0)
    (Or.inl rfl) rfl

set_option maxRecDepth 4000 in
/-- C6: the claim says the amount field of every recognized swap selector
is decoded exactly from its fixed 32-byte slot.  The code evidence: on an
input starting with the Uniswap V3 selector 0x414bf389 whose amountIn
slot (bytes 164..196) holds 10^19, the classifier returns a Swap whose
`amount_in` is the placeholder 0, not the slot value. -/
theorem C6_v3_amount_placeholder_zero :
    decode_transaction_type ⟨7, none, none,
        [0x41, 0x4b, 0xf3, 0x89] ++ List.replicate 184 0
          ++ [0x8A, 0xC7, 0x23, 0x04, 0x89, 0xE8, 0, 0]⟩
      = .UniswapV3Swap 0 0 0 ∧
    fromBigEndian ((([0x41, 0x4b, 0xf3, 0x89] ++ List.replicate 184 0
          ++ [0x8A, 0xC7, 0x23, 0x04, 0x89, 0xE8, 0, 0]).drop 164).take 32)
      = 10 ^ 19 ∧
    (0 : Nat) ≠ 10 ^ 19 :=
  ⟨rfl, rfl, by decide⟩

/-- C7: for a Swap at or above the 10^18 wei threshold, the arbitrage
strategy yields an opportunity exactly when the maximum venue price minus
the minimum venue price exceeds the fixed gas estimate, and the yielded
opportunity carries net profit equal to that difference minus the gas
estimate; below the threshold it yields nothing. -/
theorem C7_arbitrage_threshold_and_profit (prices : List (DEX × Nat))
    (tt : TxType) (tin tout a : Nat)
    (hswap : tt = .UniswapV2Swap tin tout a ∨ tt = .UniswapV3Swap tin tout a) :
    (a < 10 ^ 18 → detect_arbitrage prices tt = none) ∧
    (10 ^ 18 ≤ a → ∀ bd bp sd sp, rustMinBy prices = some (bd, bp) →
      rustMaxBy prices = some (sd, sp) →
      (∀ y ∈ prices, bp ≤ y.2 ∧ y.2 ≤ sp) ∧
      ((∃ o, detect_arbitrage prices tt = some o) ↔
        estimate_arbitrage_gas_cost < sp - bp) ∧
      (∀ o, detect_arbitrage prices tt = some o →
        o.netProfit? = some (sp - bp - estimate_arbitrage_gas_cost))) := by
  rcases hswap with rfl | rfl <;>
  · constructor
    · intro hlt
      simp only [detect_arbitrage, if_pos hlt]
    · intro hge bd bp sd sp hmin hmax
      have hbounds : ∀ y ∈ prices, bp ≤ y.2 ∧ y.2 ≤ sp := fun y hy =>
        ⟨rustMinBy_min prices (bd, bp) hmin y hy,
         rustMaxBy_max prices (sd, sp) hmax y hy⟩
      refine ⟨hbounds, ?_, ?_⟩
      · simp only [detect_arbitrage, if_neg (not_lt.mpr hge), hmin, hmax]
        split_ifs with hgt
        · exact ⟨fun _ => hgt, fun _ => ⟨_, rfl⟩⟩
        · constructor
          · intro ⟨o, ho⟩
            cases ho
          · intro h
            exact absurd h hgt
      · intro o ho
        simp only [detect_arbitrage, if_neg (not_lt.mpr hge), hmin, hmax] at ho
        split_ifs at ho with hgt
        simp only [Option.some.injEq] at ho
        subst ho
        rfl

/-- C7 witness: on the source's mock oracle prices, a 2 times 10^18 swap
satisfies the characterization with minimum price 999 ETH and maximum
price 1002 ETH. -/
theorem C7_arbitrage_threshold_and_profit_witness :
    (∀ y ∈ simulate_dex_prices,
      999 * 10 ^ 18 ≤ y.2 ∧ y.2 ≤ 1002 * 10 ^ 18) ∧
    ((∃ o, detect_arbitrage simulate_dex_prices
        (.UniswapV2Swap 0 0 (2 * 10 ^ 18)) = some o) ↔
      estimate_arbitrage_gas_cost < 1002 * 10 ^ 18 - 999 * 10 ^ 18) ∧
    (∀ o, detect_arbitrage simulate_dex_prices
        (.UniswapV2Swap 0 0 (2 * 10 ^ 18)) = some o →
      o.netProfit? = some (1002 * 10 ^ 18 - 999 * 10 ^ 18
        - estimate_arbitrage_gas_cost)) :=
  (C7_arbitrage_threshold_and_profit simulate_dex_prices _ 0 0 (2 * 10 ^ 18)
      (Or.inl rfl)).2 (by decide)
    .UniswapV3 (999 * 10 ^ 18) .SushiSwap (1002 * 10 ^ 18) rfl rfl

/-- C8: the relay loop skips disabled relays and makes no call on an
all-disabled list, fails in aggregate exactly when every enabled relay
fails, and returns the first enabled success, having attempted exactly
the failing enabled relays before it and none after; the source's
`submit_bundle_to_relays` is this loop on the configured relay list. -/
theorem C8_relay_fallback_first_success
    (attempt : RelayConfig → Except String SubmissionResult)
    (relays : List RelayConfig) :
    ((∀ r ∈ relays, r.enabled = false) →
      submit_bundle_loop attempt relays =
        (.error "Failed to submit bundle to any relay", [])) ∧
    ((∃ e, (submit_bundle_loop attempt relays).1 = .error e) ↔
      ∀ r ∈ relays, r.enabled = true → ∃ e, attempt r = .error e) ∧
    (∀ pre r post v, relays = pre ++ r :: post → r.enabled = true →
      attempt r = .ok v →
      (∀ p ∈ pre, p.enabled = true → ∃ e, attempt p = .error e) →
      submit_bundle_loop attempt relays =
        (.ok v, (pre.filter (fun p => p.enabled)).map (fun p => p.name)
          ++ [r.name])) ∧
    (∀ bundle, submit_bundle_to_relays bundle =
      submit_bundle_loop (fun r => submit_to_relay bundle r)
        get_relay_configs) :=
  ⟨submit_loop_all_disabled attempt relays,
   submit_loop_error_iff attempt relays,
   fun pre r post v hrel hr ha hfail =>
     hrel ▸ submit_loop_first_success attempt pre r post v hr ha hfail,
   fun _ => rfl⟩

/-- C8 witness: with R1 failing, R2 succeeding and R3 enabled but later,
the loop returns R2's outcome having attempted exactly R1 then R2. -/
theorem C8_relay_fallback_first_success_witness :
    submit_bundle_loop
      (fun r => if r.name = "R2" then
          .ok { bundle_hash := "h", status := .Submitted, relay := "R2",
                block_number := none, inclusion_probability := none }
        else .error "boom")
      [{ name := "R1", endpoint := "e1", signing_key := none, enabled := true },
       { name := "R2", endpoint := "e2", signing_key := none, enabled := true },
       { name := "R3", endpoint := "e3", signing_key := none, enabled := true }]
      = (.ok { bundle_hash := "h", status := .Submitted, relay := "R2",
               block_number := none, inclusion_probability := none },
         ["R1", "R2"]) := by
  have h := (C8_relay_fallback_first_success
    (fun r => if r.name = "R2" then
        .ok { bundle_hash := "h", status := .Submitted, relay := "R2",
              block_number := none, inclusion_probability := none }
      else .error "boom")
    [{ name := "R1", endpoint := "e1", signing_key := none, enabled := true },
     { name := "R2", endpoint := "e2", signing_key := none, enabled := true },
     { name := "R3", endpoint := "e3", signing_key := none, enabled := true }]).2.2.1
    [{ name := "R1", endpoint := "e1", signing_key := none, enabled := true }]
    { name := "R2", endpoint := "e2", signing_key := none, enabled := true }
    [{ name := "R3", endpoint := "e3", signing_key := none, enabled := true }]
    { bundle_hash := "h", status := .Submitted, relay := "R2",
      block_number := none, inclusion_probability := none }
    rfl rfl rfl ?_
  · exact h
  · intro p hp _
    rcases List.mem_singleton.mp hp with rfl
    exact ⟨"boom", rfl⟩

/-- C9: whenever bundle construction succeeds, an arbitrage bundle has
exactly 2 legs; a sandwich bundle has exactly the frontrun leg then the
backrun leg (the victim transaction is never constructed); a liquidation
bundle has exactly the flash-loan draw, the liquidation call and the
flash-loan repay, in that order. -/
theorem C9_bundle_leg_counts_and_order :
    (∀ ta tb bd sd pe ge ne b,
      create_arbitrage_bundle (.Arbitrage ta tb bd sd pe ge ne) = .ok b →
      b.transactions.length = 2) ∧
    (∀ vh tin tout va fr br ep gc b,
      create_sandwich_bundle (.Sandwich vh tin tout va fr br ep gc) = .ok b →
      ∃ t1 t2, create_frontrun_transaction tin tout fr 18500001 = .ok t1 ∧
        create_backrun_transaction tout tin br 18500001 = .ok t2 ∧
        b.transactions = [t1, t2]) ∧
    (∀ pr po ct dt ca da lb hf b,
      create_liquidation_bundle (.Liquidation pr po ct dt ca da lb hf) = .ok b →
      ∃ t1 t2 t3, create_flash_loan_transaction dt da 18500001 = .ok t1 ∧
        create_liquidation_transaction pr po ct dt da 18500001 = .ok t2 ∧
        create_flash_loan_repay_transaction dt da 18500001 = .ok t3 ∧
        b.transactions = [t1, t2, t3]) := by
  refine ⟨?_, ?_, ?_⟩
  · intro ta tb bd sd pe ge ne b hb
    simp only [create_arbitrage_bundle, get_current_block_number] at hb
    rcases h1 : create_dex_swap_transaction bd ta tb
        (calculate_optimal_swap_amount (.Arbitrage ta tb bd sd pe ge ne))
        (18500000 + 1) with e | t1 <;> rw [h1] at hb
    · cases hb
    · rcases h2 : create_dex_swap_transaction sd tb ta
          (calculate_optimal_swap_amount (.Arbitrage ta tb bd sd pe ge ne))
          (18500000 + 1) with e | t2 <;> rw [h2] at hb
      · cases hb
      · simp only [Except.ok.injEq] at hb
        subst hb
        rfl
  · intro vh tin tout va fr br ep gc b hb
    simp only [create_sandwich_bundle, get_current_block_number] at hb
    rcases h1 : create_frontrun_transaction tin tout fr (18500000 + 1)
      with e | t1 <;> rw [h1] at hb
    · cases hb
    · rcases h2 : create_backrun_transaction tout tin br (18500000 + 1)
        with e | t2 <;> rw [h2] at hb
      · cases hb
      · simp only [Except.ok.injEq] at hb
        subst hb
        exact ⟨t1, t2, rfl, rfl, rfl⟩
  · intro pr po ct dt ca da lb hf b hb
    simp only [create_liquidation_bundle, get_current_block_number] at hb
    rcases h1 : create_flash_loan_transaction dt da (18500000 + 1)
      with e | t1 <;> rw [h1] at hb
    · cases hb
    · rcases h2 : create_liquidation_transaction pr po ct dt da (18500000 + 1)
        with e | t2 <;> rw [h2] at hb
      · cases hb
      · rcases h3 : create_flash_loan_repay_transaction dt da (18500000 + 1)
          with e | t3 <;> rw [h3] at hb
        · cases hb
        · simp only [Except.ok.injEq] at hb
          subst hb
          exact ⟨t1, t2, t3, rfl, rfl, rfl, rfl⟩

/-- C9 witness: a concrete Aave liquidation bundle is built with the
three legs in the fixed order. -/
theorem C9_bundle_leg_counts_and_order_witness :
    ∃ b, create_liquidation_bundle
        (.Liquidation .Aave 1 2 3 4 5 6 (19 / 20 : ℚ)) = .ok b ∧
      ∃ t1 t2 t3, create_flash_loan_transaction 3 5 18500001 = .ok t1 ∧
        create_liquidation_transaction .Aave 1 2 3 5 18500001 = .ok t2 ∧
        create_flash_loan_repay_transaction 3 5 18500001 = .ok t3 ∧
        b.transactions = [t1, t2, t3] :=
  ⟨_, rfl, C9_bundle_leg_counts_and_order.2.2 .Aave 1 2 3 4 5 6 (19 / 20)
    _ rfl⟩

/-- C10: the ranking function is total with guarded subtraction — a
sandwich whose gas cost reaches its estimated profit ranks at exactly
zero, a liquidation whose bonus does not exceed the fixed liquidation gas
estimate ranks at exactly zero — and selecting the best opportunity from
any nonempty list returns an element of the list (the guarded unwrap
never fails). -/
theorem C10_net_profit_guarded_total :
    (∀ vh tin tout va fr br p g, p ≤ g →
      calculate_net_profit (.Sandwich vh tin tout va fr br p g) = 0) ∧
    (∀ pr po ct dt ca da lb hf, lb ≤ estimate_liquidation_gas_cost →
      calculate_net_profit (.Liquidation pr po ct dt ca da lb hf) = 0) ∧
    (∀ opps : List MEVOpportunity, opps ≠ [] →
      ∃ o ∈ opps, select_best_opportunity opps = some o) := by
  refine ⟨?_, ?_, ?_⟩
  · intro vh tin tout va fr br p g h
    simp only [calculate_net_profit, if_neg (not_lt.mpr h)]
  · intro pr po ct dt ca da lb hf h
    simp only [calculate_net_profit, if_neg (not_lt.mpr h)]
  · intro opps h
    have hperm := List.perm_insertionSort
      (fun a b => calculate_net_profit b ≤ calculate_net_profit a) opps
    have hne : opps.isEmpty = false := by
      cases opps with
      | nil => exact absurd rfl h
      | cons _ _ => rfl
    rcases hs : opps.insertionSort
        (fun a b => calculate_net_profit b ≤ calculate_net_profit a)
      with _ | ⟨o, rest⟩
    · rw [hs] at hperm
      exact absurd (List.Perm.nil_eq hperm).symm h
    · refine ⟨o, ?_, ?_⟩
      · rw [← hperm.mem_iff, hs]
        exact List.mem_cons_self o rest
      · simp only [select_best_opportunity, hne, Bool.false_eq_true,
          if_false, hs, List.head?]

/-- C10 witness: a break-even sandwich and a small-bonus liquidation rank
at zero, and selection on a singleton list returns its element. -/
theorem C10_net_profit_guarded_total_witness :
    calculate_net_profit (.Sandwich 1 2 3 4 5 6 7 7) = 0 ∧
    calculate_net_profit (.Liquidation .Aave 1 2 3 4 5 6 (19 / 20 : ℚ)) = 0 ∧
    ∃ o ∈ [MEVOpportunity.Sandwich 1 2 3 4 5 6 7 7],
      select_best_opportunity [.Sandwich 1 2 3 4 5 6 7 7] = some o :=
  ⟨C10_net_profit_guarded_total.1 1 2 3 4 5 6 7 7 (by decide),
   C10_net_profit_guarded_total.2.1 .Aave 1 2 3 4 5 6 (19 / 20) (by decide),
   C10_net_profit_guarded_total.2.2 [.Sandwich 1 2 3 4 5 6 7 7] (by simp)⟩

end MempoolVortex
